import Mathlib

/-!
Verification development for the `magtag_esp_hal` firmware binary
(`src/bin/main.rs`).  The binary's `main` is a straight-line orchestration:
wifi scan → connect poll loop → DHCP poll loop → one HTTP fetch over a
blocking socket → grayscale e-paper composition and refresh → terminal idle
loop.  We embed that control flow as a fuel-indexed trace-producing function
over an oracle environment (`Env`) describing the collaborators' observable
behaviour (radio status answers, interface-up answers, socket results,
clock readings), and prove trace properties about it.

The dual-plane Gray2 framebuffer (`Display2in9Gray2`, from the ssd1680
crate) and the blocking socket's read semantics (from the
blocking_network_stack crate) are not vendored in this repository's `src/`;
those two pieces are modelled from the specification and are marked as such
in their doc comments.
-/

/-! ## Dual-plane Gray2 framebuffer -/

/-- Panel-native width of the 2.9-inch panel driven by `Display2in9Gray2`. -/
def fbWidth : Nat := 128

/-- Panel-native height of the 2.9-inch panel driven by `Display2in9Gray2`. -/
def fbHeight : Nat := 296

/-- Bytes per bit-plane: W×H bits packed 8 pixels per byte. -/
def planeBytes : Nat := fbWidth * fbHeight / 8

/-- Modelled from the spec: `Display2in9Gray2` of the ssd1680 crate (not
vendored under `src/`): a two-bit-per-pixel framebuffer held as two packed
bit-planes (`highPlane` and `lowPlane`), each W×H bits, row-major, 8 pixels
per storage byte. -/
structure Display2in9Gray2 where
  highPlane : List Nat
  lowPlane : List Nat
  deriving DecidableEq

/-- Modelled from the spec: `Display2in9Gray2::new()` — zero-initialised
planes of the fixed panel size. -/
def Display2in9Gray2.new : Display2in9Gray2 :=
  ⟨List.replicate planeBytes 0, List.replicate planeBytes 0⟩

/-- Row-major bit index of pixel (x, y). -/
def pixelIndex (x y : Nat) : Nat := y * fbWidth + x

/-- Bit position inside the storage byte (most significant bit first). -/
def bitShift (i : Nat) : Nat := 7 - i % 8

/-- Read one plane bit (0 or 1) at bit index `i`. -/
def getPlaneBit (plane : List Nat) (i : Nat) : Nat :=
  plane.getD (i / 8) 0 / 2 ^ bitShift i % 2

/-- Write plane bit `b` (0 or 1) at bit index `i`: clear the bit of the
addressed byte, then or the new value in. -/
def setPlaneBit (plane : List Nat) (i : Nat) (b : Nat) : List Nat :=
  let old := plane.getD (i / 8) 0
  let cleared := old - old / 2 ^ bitShift i % 2 * 2 ^ bitShift i
  plane.set (i / 8) (cleared + b * 2 ^ bitShift i)

/-- Modelled from the spec: writing gray level `g ∈ {0..3}` at pixel (x, y)
sets the corresponding bit in each plane independently: the high plane
receives the high bit `g / 2`, the low plane the low bit `g % 2`. -/
def Display2in9Gray2.setPixel (d : Display2in9Gray2) (x y g : Nat) :
    Display2in9Gray2 :=
  ⟨setPlaneBit d.highPlane (pixelIndex x y) (g / 2),
   setPlaneBit d.lowPlane (pixelIndex x y) (g % 2)⟩

/-- Read-only access to the high plane, as handed to the panel driver. -/
def Display2in9Gray2.highBuffer (d : Display2in9Gray2) : List Nat := d.highPlane

/-- Read-only access to the low plane, as handed to the panel driver. -/
def Display2in9Gray2.lowBuffer (d : Display2in9Gray2) : List Nat := d.lowPlane

/-- Reconstruct a pixel's gray level from the two planes, exactly as the
invariant states it: `(highBit <<< 1) ||| lowBit`. -/
def Display2in9Gray2.getGray (d : Display2in9Gray2) (x y : Nat) : Nat :=
  Nat.shiftLeft (getPlaneBit d.highBuffer (pixelIndex x y)) 1 |||
    getPlaneBit d.lowBuffer (pixelIndex x y)

/-! ## Blocking socket read semantics (spec model) -/

/-- Result of one `read` call on the blocking socket. -/
inductive SockRes where
  | recv (bytes : List Nat)
  | endOfStream
  deriving DecidableEq

/-- Modelled from the spec: the observable receive-side state of
`BlockingSocket` (blocking_network_stack crate, not vendored under `src/`):
the queue of byte chunks already delivered by the stack, and whether the
peer has closed the stream. -/
structure SockState where
  rxQueue : List (List Nat)
  peerClosed : Bool
  deriving DecidableEq

/-- Modelled from the spec: `read` returns available received bytes without
blocking; with no data available and the peer still open it returns zero
bytes without error; with no data available and the peer closed it reports
end-of-stream. -/
def sockRead (s : SockState) : SockRes × SockState :=
  match s.rxQueue with
  | c :: rest => (SockRes.recv c, ⟨rest, s.peerClosed⟩)
  | [] =>
    if s.peerClosed then (SockRes.endOfStream, s)
    else (SockRes.recv [], s)

/-- The socket state after `n` successive `read` calls. -/
def sockReadN (s : SockState) : Nat → SockState
  | 0 => s
  | n + 1 => sockReadN (sockRead s).2 n

/-! ## UTF-8 validity (for the unchecked conversion of received chunks) -/

/-- Is `b` a UTF-8 continuation byte (`0x80..=0xBF`)? -/
def utf8Cont (b : Nat) : Bool := 0x80 ≤ b && b ≤ 0xBF

/-- Standard UTF-8 validity of a byte sequence (what
`core::str::from_utf8_unchecked` requires but never checks). -/
def utf8Valid : List Nat → Bool
  | [] => true
  | b :: rest =>
    if b ≤ 0x7F then utf8Valid rest
    else if 0xC2 ≤ b && b ≤ 0xDF then
      match rest with
      | c1 :: rest2 => utf8Cont c1 && utf8Valid rest2
      | [] => false
    else if b == 0xE0 then
      match rest with
      | c1 :: c2 :: rest2 =>
        (0xA0 ≤ c1 && c1 ≤ 0xBF) && utf8Cont c2 && utf8Valid rest2
      | _ => false
    else if (0xE1 ≤ b && b ≤ 0xEC) || b == 0xEE || b == 0xEF then
      match rest with
      | c1 :: c2 :: rest2 => utf8Cont c1 && utf8Cont c2 && utf8Valid rest2
      | _ => false
    else if b == 0xED then
      match rest with
      | c1 :: c2 :: rest2 =>
        (0x80 ≤ c1 && c1 ≤ 0x9F) && utf8Cont c2 && utf8Valid rest2
      | _ => false
    else if b == 0xF0 then
      match rest with
      | c1 :: c2 :: c3 :: rest2 =>
        (0x90 ≤ c1 && c1 ≤ 0xBF) && utf8Cont c2 && utf8Cont c3 &&
          utf8Valid rest2
      | _ => false
    else if 0xF1 ≤ b && b ≤ 0xF3 then
      match rest with
      | c1 :: c2 :: c3 :: rest2 =>
        utf8Cont c1 && utf8Cont c2 && utf8Cont c3 && utf8Valid rest2
      | _ => false
    else if b == 0xF4 then
      match rest with
      | c1 :: c2 :: c3 :: rest2 =>
        (0x80 ≤ c1 && c1 ≤ 0x8F) && utf8Cont c2 && utf8Cont c3 &&
          utf8Valid rest2
      | _ => false
    else false

/-! ## Trace model of `main` -/

/-- Answer of one `controller.is_connected()` call. -/
inductive WifiStatus where
  | connected
  | notConnected
  | statusErr
  deriving DecidableEq

/-- Result of one `socket.read(&mut buffer)` call as seen by the
`while let Ok(len)` loop: a successful chunk (possibly empty), or any `Err`. -/
inductive ReadRes where
  | chunk (bytes : List Nat)
  | readErr
  deriving DecidableEq

/-- Observable events emitted by the embedded `main`, in program order. -/
inductive Event where
  | scan (aps : List Nat)
  | connectCmd
  | statusCheck (s : WifiStatus)
  | statusLog (s : WifiStatus)
  | halt
  | stackWork
  | gotIp (addr : Option (List Nat))
  | socketWork
  | socketOpen (a b c d port : Nat)
  | socketWrite (payload : List Nat)
  | socketFlush
  | readChunk (bytes : List Nat)
  | logUnchecked (bytes : List Nat)
  | deadlineCheck (expired : Bool)
  | timeoutLog
  | disconnect
  | panelInit
  | drawText
  | drawRect
  | drawBitmap
  | drawLine
  | render
  deriving DecidableEq

/-- How a (fuel-bounded) run ends: a panicking `unwrap`, the `loop {}` after
a status error, the terminal idle loop, or fuel exhaustion while a source
loop is still spinning. -/
inductive RunEnd where
  | paniced
  | haltedForever
  | idleForever
  | outOfFuel
  deriving DecidableEq

/-- A run: its event trace and the way it ends. -/
structure RunResult where
  trace : List Event
  ending : RunEnd
  deriving DecidableEq

/-- Oracle environment: the observable behaviour of the collaborators
consumed by `main`, indexed by call number where the collaborator is called
repeatedly. -/
structure Env where
  scanResult : List Nat
  isConnected : Nat → WifiStatus
  ifaceUp : Nat → Bool
  ipInfo : Nat → Option (List Nat)
  openOk : Bool
  writeOk : Bool
  flushOk : Bool
  readResults : Nat → ReadRes
  timeAfterRead : Nat → Nat

/-- The literal HTTP request bytes written by `main`
(`b"GET / HTTP/1.0\r\nHost: www.mobile-j.de\r\n\r\n"`). -/
def httpRequest : List Nat :=
  "GET / HTTP/1.0\r\nHost: www.mobile-j.de\r\n\r\n".data.map Char.toNat

/-- The `is_connected` poll loop (`loop { match controller.is_connected() }`):
one `statusCheck` event per query; `Ok(true)` breaks forward (`some true`),
`Err(_)` falls into `loop {}` (`some false`), `Ok(false)` polls again with
no delay. `none` means the fuel ran out while still polling. -/
def connectLoop (f : Nat → WifiStatus) : Nat → Nat → List Event × Option Bool
  | 0, _ => ([], none)
  | fuel + 1, k =>
    match f k with
    | WifiStatus.connected => ([Event.statusCheck WifiStatus.connected], some true)
    | WifiStatus.statusErr => ([Event.statusCheck WifiStatus.statusErr], some false)
    | WifiStatus.notConnected =>
      match connectLoop f fuel (k + 1) with
      | (evs, r) => (Event.statusCheck WifiStatus.notConnected :: evs, r)

/-- The address-acquisition loop (`loop { stack.work(); if stack.is_iface_up()
{ … break } }`): one `stackWork` tick per iteration; when the interface
first reports up, the ip info is logged and the loop breaks. -/
def ipLoop (u : Nat → Bool) (ip : Nat → Option (List Nat)) :
    Nat → Nat → List Event × Bool
  | 0, _ => ([], false)
  | fuel + 1, k =>
    if u k then ([Event.stackWork, Event.gotIp (ip k)], true)
    else
      match ipLoop u ip fuel (k + 1) with
      | (evs, r) => (Event.stackWork :: evs, r)

/-- The fetch read loop (`while let Ok(len) = socket.read(&mut buffer)`):
a successful read logs the chunk through the unchecked UTF-8 conversion and
only then consults the 20-second deadline; an `Err` exits the loop without
any deadline check. -/
def readLoop (rd : Nat → ReadRes) (t : Nat → Nat) :
    Nat → Nat → List Event × Bool
  | 0, _ => ([], false)
  | fuel + 1, k =>
    match rd k with
    | ReadRes.readErr => ([], true)
    | ReadRes.chunk bytes =>
      if 20000 < t k then
        ([Event.readChunk bytes, Event.logUnchecked bytes,
          Event.deadlineCheck true, Event.timeoutLog], true)
      else
        match readLoop rd t fuel (k + 1) with
        | (evs, r) =>
          (Event.readChunk bytes :: Event.logUnchecked bytes ::
            Event.deadlineCheck false :: evs, r)

/-- The fetch phase (`socket.work(); open(142.250.185.115, 80).unwrap();
write(request).unwrap(); flush().unwrap(); read loop; disconnect`).  Each
`unwrap` on a failed socket operation panics (`some false`); `none`
propagates fuel exhaustion of the read loop. -/
def fetchPhase (oOk wOk fOk : Bool) (rd : Nat → ReadRes) (t : Nat → Nat)
    (fuel : Nat) : List Event × Option Bool :=
  if oOk then
    if wOk then
      if fOk then
        match readLoop rd t fuel 0 with
        | (evs, true) =>
          ([Event.socketWork, Event.socketOpen 142 250 185 115 80,
            Event.socketWrite httpRequest, Event.socketFlush] ++ evs ++
            [Event.disconnect], some true)
        | (evs, false) =>
          ([Event.socketWork, Event.socketOpen 142 250 185 115 80,
            Event.socketWrite httpRequest, Event.socketFlush] ++ evs, none)
      else
        ([Event.socketWork, Event.socketOpen 142 250 185 115 80,
          Event.socketWrite httpRequest, Event.socketFlush], some false)
    else
      ([Event.socketWork, Event.socketOpen 142 250 185 115 80,
        Event.socketWrite httpRequest], some false)
  else
    ([Event.socketWork, Event.socketOpen 142 250 185 115 80], some false)

/-- The display composition and refresh (lines 157–224): panel begin, the
four draws, and the single two-plane refresh.  Panel errors are out of the
model's scope (the panel is an opaque collaborator whose failures are fatal
by design). -/
def renderEvents : List Event :=
  [Event.panelInit, Event.drawText, Event.drawRect, Event.drawBitmap,
   Event.drawLine, Event.render]

/-- Everything `main` does after the diagnostic scan: connect poll loop,
one further `is_connected()` diagnostic query, address acquisition, fetch,
render, and the terminal idle loop of `socket.work()` ticks. -/
def runTail (conn : Nat → WifiStatus) (u : Nat → Bool)
    (ip : Nat → Option (List Nat)) (oOk wOk fOk : Bool)
    (rd : Nat → ReadRes) (t : Nat → Nat) (fuel : Nat) :
    List Event × RunEnd :=
  match connectLoop conn fuel 0 with
  | (evs, none) => (evs, RunEnd.outOfFuel)
  | (evs, some false) => (evs ++ [Event.halt], RunEnd.haltedForever)
  | (evs, some true) =>
    match ipLoop u ip fuel 0 with
    | (evs2, false) =>
      (evs ++ Event.statusLog (conn evs.length) :: evs2, RunEnd.outOfFuel)
    | (evs2, true) =>
      match fetchPhase oOk wOk fOk rd t fuel with
      | (evs3, none) =>
        (evs ++ Event.statusLog (conn evs.length) :: (evs2 ++ evs3),
         RunEnd.outOfFuel)
      | (evs3, some false) =>
        (evs ++ Event.statusLog (conn evs.length) :: (evs2 ++ evs3),
         RunEnd.paniced)
      | (evs3, some true) =>
        (evs ++ Event.statusLog (conn evs.length) ::
          (evs2 ++ evs3 ++ renderEvents ++
            List.replicate fuel Event.socketWork),
         RunEnd.idleForever)

/-- The whole embedded `main`: the bounded diagnostic scan (at most 10
access points), the connect request, then `runTail`. -/
def runMain (env : Env) (fuel : Nat) : RunResult :=
  ⟨Event.scan (env.scanResult.take 10) :: Event.connectCmd ::
      (runTail env.isConnected env.ifaceUp env.ipInfo env.openOk env.writeOk
        env.flushOk env.readResults env.timeAfterRead fuel).1,
    (runTail env.isConnected env.ifaceUp env.ipInfo env.openOk env.writeOk
      env.flushOk env.readResults env.timeAfterRead fuel).2⟩

/-! ## Event classifiers -/

/-- Is this a `statusCheck` event of the connect poll loop? -/
def isStatusCheck : Event → Bool
  | Event.statusCheck _ => true
  | _ => false

/-- Is this a `gotIp` event? -/
def isGotIp : Event → Bool
  | Event.gotIp _ => true
  | _ => false

/-- Is this a socket `open` attempt? -/
def isOpenEvt : Event → Bool
  | Event.socketOpen _ _ _ _ _ => true
  | _ => false

/-- Is this a socket `write` attempt? -/
def isWriteEvt : Event → Bool
  | Event.socketWrite _ => true
  | _ => false

/-- Is this a socket `flush` attempt? -/
def isFlushEvt : Event → Bool
  | Event.socketFlush => true
  | _ => false

/-- Is this the diagnostic scan event? -/
def isScanEvt : Event → Bool
  | Event.scan _ => true
  | _ => false

/-- The byte chunks handed to the unchecked UTF-8 conversion and logged. -/
def loggedBytes (evs : List Event) : List (List Nat) :=
  evs.filterMap fun e =>
    match e with
    | Event.logUnchecked b => some b
    | _ => none

/-- The byte chunks returned by successful socket reads. -/
def readBytes (evs : List Event) : List (List Nat) :=
  evs.filterMap fun e =>
    match e with
    | Event.readChunk b => some b
    | _ => none

/-! ## List helpers -/

lemma getD_replicate_zero (n j : Nat) :
    (List.replicate n (0 : Nat)).getD j 0 = 0 := by
  induction n generalizing j with
  | zero => simp
  | succ m ih =>
    cases j with
    | zero => simp [List.replicate]
    | succ i => simp [List.replicate, ih i]

lemma getD_set_self (l : List Nat) (j a : Nat) (h : j < l.length) :
    (l.set j a).getD j 0 = a := by
  induction l generalizing j with
  | nil => simp at h
  | cons x xs ih =>
    cases j with
    | zero => simp
    | succ i => simpa using ih i (by simpa using h)

/-! ## C7: gray-level roundtrip through the two planes -/

lemma planeBit_roundtrip (i b : Nat) (hb : b < 2) (hi : i < fbWidth * fbHeight) :
    getPlaneBit (setPlaneBit (List.replicate planeBytes 0) i b) i = b := by
  have hlen : i / 8 < planeBytes := by
    simp only [fbWidth, fbHeight] at hi
    simp only [planeBytes, fbWidth, fbHeight]
    omega
  simp only [getPlaneBit, setPlaneBit, getD_replicate_zero, Nat.zero_div,
    Nat.zero_mod, Nat.zero_mul, Nat.sub_zero, Nat.zero_add]
  rw [getD_set_self _ _ _ (by simpa using hlen)]
  rw [Nat.mul_div_cancel _ (pow_pos (by norm_num : (0:ℕ) < 2) _)]
  exact Nat.mod_eq_of_lt hb

/-- C7: for every in-bounds pixel of the freshly constructed framebuffer and
every gray level G ∈ {0,1,2,3}, writing G and reconstructing the level from
the two planes as `(highBit <<< 1) ||| lowBit` yields exactly G. -/
theorem gray2_setPixel_roundtrip (x y g : Nat) (hx : x < fbWidth)
    (hy : y < fbHeight) (hg : g < 4) :
    (Display2in9Gray2.new.setPixel x y g).getGray x y = g := by
  have hi : pixelIndex x y < fbWidth * fbHeight := by
    simp only [pixelIndex, fbWidth, fbHeight] at *
    omega
  simp only [Display2in9Gray2.getGray, Display2in9Gray2.setPixel,
    Display2in9Gray2.new, Display2in9Gray2.highBuffer,
    Display2in9Gray2.lowBuffer]
  rw [planeBit_roundtrip _ _ (by omega) hi,
    planeBit_roundtrip _ _ (Nat.mod_lt _ (by norm_num)) hi]
  interval_cases g <;> rfl

/-- C7 witness: the roundtrip at the concrete pixel (5, 7) with level 2. -/
theorem gray2_setPixel_roundtrip_witness :
    5 < fbWidth ∧ 7 < fbHeight ∧ 2 < 4 ∧
      (Display2in9Gray2.new.setPixel 5 7 2).getGray 5 7 = 2 :=
  ⟨by decide, by decide, by decide,
    gray2_setPixel_roundtrip 5 7 2 (by decide) (by decide) (by decide)⟩

/-! ## Connect-loop and ip-loop characterisations -/

lemma connectLoop_ok (f : Nat → WifiStatus) (N : Nat) :
    ∀ fuel k, (∀ j, j < N → f (k + j) = WifiStatus.notConnected) →
      f (k + N) = WifiStatus.connected → N < fuel →
      connectLoop f fuel k =
        (List.replicate N (Event.statusCheck WifiStatus.notConnected) ++
          [Event.statusCheck WifiStatus.connected], some true) := by
  induction N with
  | zero =>
    intro fuel k _ hc hf
    cases fuel with
    | zero => omega
    | succ m =>
      rw [Nat.add_zero] at hc
      simp [connectLoop, hc]
  | succ n ih =>
    intro fuel k h1 hc hf
    cases fuel with
    | zero => omega
    | succ m =>
      have h0 : f k = WifiStatus.notConnected := by
        have := h1 0 (Nat.succ_pos n)
        rwa [Nat.add_zero] at this
      have hrec := ih m (k + 1)
        (fun j hj => by
          have := h1 (j + 1) (by omega)
          rwa [show k + (j + 1) = k + 1 + j by omega] at this)
        (by rwa [show k + (n + 1) = k + 1 + n by omega] at hc)
        (by omega)
      simp [connectLoop, h0, hrec, List.replicate_succ]

lemma connectLoop_err (f : Nat → WifiStatus) (N : Nat) :
    ∀ fuel k, (∀ j, j < N → f (k + j) = WifiStatus.notConnected) →
      f (k + N) = WifiStatus.statusErr → N < fuel →
      connectLoop f fuel k =
        (List.replicate N (Event.statusCheck WifiStatus.notConnected) ++
          [Event.statusCheck WifiStatus.statusErr], some false) := by
  induction N with
  | zero =>
    intro fuel k _ hc hf
    cases fuel with
    | zero => omega
    | succ m =>
      rw [Nat.add_zero] at hc
      simp [connectLoop, hc]
  | succ n ih =>
    intro fuel k h1 hc hf
    cases fuel with
    | zero => omega
    | succ m =>
      have h0 : f k = WifiStatus.notConnected := by
        have := h1 0 (Nat.succ_pos n)
        rwa [Nat.add_zero] at this
      have hrec := ih m (k + 1)
        (fun j hj => by
          have := h1 (j + 1) (by omega)
          rwa [show k + (j + 1) = k + 1 + j by omega] at this)
        (by rwa [show k + (n + 1) = k + 1 + n by omega] at hc)
        (by omega)
      simp [connectLoop, h0, hrec, List.replicate_succ]

lemma ipLoop_up (u : Nat → Bool) (ip : Nat → Option (List Nat)) (M : Nat) :
    ∀ fuel k, (∀ j, j < M → u (k + j) = false) → u (k + M) = true →
      M < fuel →
      ipLoop u ip fuel k =
        (List.replicate M Event.stackWork ++
          [Event.stackWork, Event.gotIp (ip (k + M))], true) := by
  induction M with
  | zero =>
    intro fuel k _ hu hf
    cases fuel with
    | zero => omega
    | succ m =>
      rw [Nat.add_zero] at hu
      simp [ipLoop, hu]
  | succ n ih =>
    intro fuel k h1 hu hf
    cases fuel with
    | zero => omega
    | succ m =>
      have h0 : u k = false := by
        have := h1 0 (Nat.succ_pos n)
        rwa [Nat.add_zero] at this
      have hrec := ih m (k + 1)
        (fun j hj => by
          have := h1 (j + 1) (by omega)
          rwa [show k + (j + 1) = k + 1 + j by omega] at this)
        (by rwa [show k + (n + 1) = k + 1 + n by omega] at hu)
        (by omega)
      simp [ipLoop, h0, hrec, List.replicate_succ,
        show k + 1 + n = k + (n + 1) by omega]

/-! ## Read-loop termination -/

lemma readLoop_completes (rd : Nat → ReadRes) (t : Nat → Nat) (K : Nat)
    (h : ∀ k, K ≤ k → 20000 < t k) :
    ∀ fuel k, 1 ≤ fuel → K + 1 ≤ k + fuel → (readLoop rd t fuel k).2 = true := by
  intro fuel
  induction fuel with
  | zero => intro k h1 _; omega
  | succ m ih =>
    intro k _ hb
    cases hrd : rd k with
    | readErr => simp [readLoop, hrd]
    | chunk bytes =>
      by_cases ht : 20000 < t k
      · simp [readLoop, hrd, ht]
      · have hk : k < K := by
          by_contra hkk
          exact ht (h k (by omega))
        have hm : 1 ≤ m := by omega
        have hrec := ih (k + 1) hm (by omega)
        rcases hq : readLoop rd t m (k + 1) with ⟨evs, r⟩
        rw [hq] at hrec
        simp [readLoop, hrd, ht, hq]
        simpa using hrec

/-! ## Shape of the events each loop can emit -/

lemma connectLoop_shape (f : Nat → WifiStatus) :
    ∀ fuel k e, e ∈ (connectLoop f fuel k).1 → ∃ s, e = Event.statusCheck s := by
  intro fuel
  induction fuel with
  | zero => intro k e he; simp [connectLoop] at he
  | succ m ih =>
    intro k e he
    cases hf : f k with
    | connected =>
      simp [connectLoop, hf] at he
      exact ⟨_, he⟩
    | statusErr =>
      simp [connectLoop, hf] at he
      exact ⟨_, he⟩
    | notConnected =>
      rcases hq : connectLoop f m (k + 1) with ⟨evs, r⟩
      simp [connectLoop, hf, hq] at he
      rcases he with he | he
      · exact ⟨_, he⟩
      · exact ih (k + 1) e (by rw [hq]; exact he)

lemma ipLoop_shape (u : Nat → Bool) (ip : Nat → Option (List Nat)) :
    ∀ fuel k e, e ∈ (ipLoop u ip fuel k).1 →
      e = Event.stackWork ∨ ∃ a, e = Event.gotIp a := by
  intro fuel
  induction fuel with
  | zero => intro k e he; simp [ipLoop] at he
  | succ m ih =>
    intro k e he
    by_cases hu : u k
    · simp [ipLoop, hu] at he
      rcases he with he | he
      · exact Or.inl he
      · exact Or.inr ⟨_, he⟩
    · rcases hq : ipLoop u ip m (k + 1) with ⟨evs, r⟩
      simp [ipLoop, hu, hq] at he
      rcases he with he | he
      · exact Or.inl he
      · exact ih (k + 1) e (by rw [hq]; exact he)

lemma readLoop_shape (rd : Nat → ReadRes) (t : Nat → Nat) :
    ∀ fuel k e, e ∈ (readLoop rd t fuel k).1 →
      (∃ b, e = Event.readChunk b) ∨ (∃ b, e = Event.logUnchecked b) ∨
      (∃ b, e = Event.deadlineCheck b) ∨ e = Event.timeoutLog := by
  intro fuel
  induction fuel with
  | zero => intro k e he; simp [readLoop] at he
  | succ m ih =>
    intro k e he
    cases hrd : rd k with
    | readErr => simp [readLoop, hrd] at he
    | chunk bytes =>
      by_cases ht : 20000 < t k
      · simp [readLoop, hrd, ht] at he
        rcases he with he | he | he | he
        · exact Or.inl ⟨_, he⟩
        · exact Or.inr (Or.inl ⟨_, he⟩)
        · exact Or.inr (Or.inr (Or.inl ⟨_, he⟩))
        · exact Or.inr (Or.inr (Or.inr he))
      · rcases hq : readLoop rd t m (k + 1) with ⟨evs, r⟩
        simp [readLoop, hrd, ht, hq] at he
        rcases he with he | he | he | he
        · exact Or.inl ⟨_, he⟩
        · exact Or.inr (Or.inl ⟨_, he⟩)
        · exact Or.inr (Or.inr (Or.inl ⟨_, he⟩))
        · exact ih (k + 1) e (by rw [hq]; exact he)

lemma fetchPhase_shape (oOk wOk fOk : Bool) (rd : Nat → ReadRes)
    (t : Nat → Nat) (fuel : Nat) :
    ∀ e ∈ (fetchPhase oOk wOk fOk rd t fuel).1,
      e = Event.socketWork ∨ e = Event.socketOpen 142 250 185 115 80 ∨
      e = Event.socketWrite httpRequest ∨ e = Event.socketFlush ∨
      e = Event.disconnect ∨ e ∈ (readLoop rd t fuel 0).1 := by
  intro e he
  rcases hq : readLoop rd t fuel 0 with ⟨evs, r⟩
  by_cases ho : oOk
  · by_cases hw : wOk
    · by_cases hfl : fOk
      · cases r <;> simp [fetchPhase, ho, hw, hfl, hq] at he <;> tauto
      · simp [fetchPhase, ho, hw, hfl] at he
        tauto
    · simp [fetchPhase, ho, hw] at he
      tauto
  · simp [fetchPhase, ho] at he
    tauto

/-! ## C2: the fetch never blocks indefinitely -/

lemma sockReadN_drain (q : List (List Nat)) (c : Bool) :
    sockReadN ⟨q, c⟩ q.length = ⟨[], c⟩ := by
  induction q with
  | nil => rfl
  | cons ch rest ih => simpa [sockReadN, sockRead] using ih

/-- C2: the fetch read loop never blocks indefinitely: (i) a read issued
with no data available while the peer is still open returns zero bytes
without error; (ii) after the peer closes the stream, reads drain the
remaining queued chunks and then report end-of-stream; (iii) once every
read from some point on observes a clock past the 20-second deadline, the
caller's read loop stops (truncates) instead of polling forever. -/
theorem fetch_read_never_blocks :
    (∀ s : SockState, s.rxQueue = [] → s.peerClosed = false →
      sockRead s = (SockRes.recv [], s)) ∧
    (∀ s : SockState, s.peerClosed = true →
      (sockRead (sockReadN s s.rxQueue.length)).1 = SockRes.endOfStream) ∧
    (∀ (rd : Nat → ReadRes) (t : Nat → Nat) (K fuel : Nat),
      (∀ k, K ≤ k → 20000 < t k) → K < fuel →
      (readLoop rd t fuel 0).2 = true) := by
  refine ⟨?_, ?_, ?_⟩
  · rintro ⟨q, c⟩ hq hc
    dsimp only at hq hc
    subst hq
    subst hc
    rfl
  · rintro ⟨q, c⟩ hc
    dsimp only at hc
    subst hc
    dsimp only
    rw [sockReadN_drain]
    rfl
  · intro rd t K fuel hK hf
    exact readLoop_completes rd t K hK fuel 0 (by omega) (by omega)

/-- C2 witness: concrete instances of all three parts. -/
theorem fetch_read_never_blocks_witness :
    sockRead ⟨[], false⟩ = (SockRes.recv [], ⟨[], false⟩) ∧
    (sockRead (sockReadN ⟨[[104, 105]], true⟩ 1)).1 = SockRes.endOfStream ∧
    (readLoop (fun _ => ReadRes.chunk []) (fun _ => 30000) 1 0).2 = true := by
  refine ⟨fetch_read_never_blocks.1 ⟨[], false⟩ rfl rfl, ?_, ?_⟩
  · exact fetch_read_never_blocks.2.1 ⟨[[104, 105]], true⟩ rfl
  · exact fetch_read_never_blocks.2.2 (fun _ => ReadRes.chunk [])
      (fun _ => 30000) 0 1 (fun k _ => by norm_num) (by norm_num)

/-! ## C8: received chunks flow to the unchecked UTF-8 conversion -/

/-- C8: every chunk received by the fetch loop is handed verbatim to the
unchecked UTF-8 conversion and logged — the logged chunk list equals the
received chunk list for every oracle — and a run exists whose logged chunk
is not valid UTF-8, so the program establishes no validity guarantee; the
request the program itself sends is, by contrast, valid UTF-8. -/
theorem fetch_chunks_logged_unchecked :
    (∀ (rd : Nat → ReadRes) (t : Nat → Nat) (fuel k : Nat),
      loggedBytes (readLoop rd t fuel k).1 =
        readBytes (readLoop rd t fuel k).1) ∧
    readLoop (fun _ => ReadRes.chunk [255]) (fun _ => 30000) 1 0 =
      ([Event.readChunk [255], Event.logUnchecked [255],
        Event.deadlineCheck true, Event.timeoutLog], true) ∧
    utf8Valid [255] = false ∧
    utf8Valid httpRequest = true := by
  refine ⟨?_, by decide, by decide, by decide⟩
  intro rd t fuel
  induction fuel with
  | zero => intro k; rfl
  | succ m ih =>
    intro k
    cases hrd : rd k with
    | readErr => simp [readLoop, hrd, loggedBytes, readBytes]
    | chunk bytes =>
      by_cases ht : 20000 < t k
      · simp [readLoop, hrd, ht, loggedBytes, readBytes]
      · rcases hq : readLoop rd t m (k + 1) with ⟨evs, r⟩
        have hrec := ih (k + 1)
        rw [hq] at hrec
        simp [readLoop, hrd, ht, hq, loggedBytes, readBytes] at hrec ⊢
        exact hrec

/-! ## C9: deadline consulted only after a successful read -/

lemma get?_cons3 (a b c : Event) (l : List Event) (j : Nat) :
    (a :: b :: c :: l).get? (j + 3) = l.get? j := rfl

lemma readLoop_deadline_after_log (rd : Nat → ReadRes) (t : Nat → Nat) :
    ∀ fuel k i b,
      (readLoop rd t fuel k).1.get? i = some (Event.deadlineCheck b) →
      2 ≤ i ∧ ∃ bytes,
        (readLoop rd t fuel k).1.get? (i - 1) =
          some (Event.logUnchecked bytes) ∧
        (readLoop rd t fuel k).1.get? (i - 2) =
          some (Event.readChunk bytes) := by
  intro fuel
  induction fuel with
  | zero => intro k i b h; simp [readLoop] at h
  | succ m ih =>
    intro k i b h
    cases hrd : rd k with
    | readErr => simp [readLoop, hrd] at h
    | chunk bytes0 =>
      by_cases ht : 20000 < t k
      · simp only [readLoop, hrd, if_pos ht] at h ⊢
        match i with
        | 0 => simp at h
        | 1 => simp at h
        | 2 => exact ⟨by omega, bytes0, by simp, by simp⟩
        | 3 => simp at h
        | n + 4 => simp at h
      · rcases hq : readLoop rd t m (k + 1) with ⟨evs, r⟩
        simp only [readLoop, hrd, if_neg ht, hq] at h ⊢
        match i with
        | 0 => simp at h
        | 1 => simp at h
        | 2 => exact ⟨by omega, bytes0, by simp, by simp⟩
        | n + 3 =>
          have h' : evs.get? n = some (Event.deadlineCheck b) := by
            simpa using h
          have hres := ih (k + 1) n b (by rw [hq]; exact h')
          rw [hq] at hres
          obtain ⟨hn2, bytes, hl, hr2⟩ := hres
          refine ⟨by omega, bytes, ?_, ?_⟩
          · have e1 : n + 3 - 1 = n - 1 + 3 := by omega
            rw [e1, get?_cons3]
            exact hl
          · have e2 : n + 3 - 2 = n - 2 + 3 := by omega
            rw [e2, get?_cons3]
            exact hr2

/-- C9: in the fetch read loop, the 20-second deadline is consulted only
immediately after a successful read whose chunk has already been logged
(every `deadlineCheck` in the loop's trace is directly preceded by the
logged chunk of the read that produced it), and a read error exits the loop
at once without any deadline check — even when the clock is already past
the deadline. -/
theorem deadline_checked_only_after_read :
    (∀ (rd : Nat → ReadRes) (t : Nat → Nat) (fuel i : Nat) (b : Bool),
      (readLoop rd t fuel 0).1.get? i = some (Event.deadlineCheck b) →
      2 ≤ i ∧ ∃ bytes,
        (readLoop rd t fuel 0).1.get? (i - 1) =
          some (Event.logUnchecked bytes) ∧
        (readLoop rd t fuel 0).1.get? (i - 2) =
          some (Event.readChunk bytes)) ∧
    (∀ (rd : Nat → ReadRes) (t : Nat → Nat) (fuel : Nat),
      rd 0 = ReadRes.readErr → 1 ≤ fuel →
      readLoop rd t fuel 0 = ([], true)) := by
  constructor
  · intro rd t fuel i b h
    exact readLoop_deadline_after_log rd t fuel 0 i b h
  · intro rd t fuel h hf
    cases fuel with
    | zero => omega
    | succ m => simp [readLoop, h]

/-- C9 witness: a one-chunk run whose only deadline check sits right after
the logged read, and an immediate-error run past the deadline with no
deadline check at all. -/
theorem deadline_checked_only_after_read_witness :
    (2 ≤ 2 ∧ ∃ bytes,
      (readLoop (fun _ => ReadRes.chunk [65]) (fun _ => 30000) 1 0).1.get?
          (2 - 1) = some (Event.logUnchecked bytes) ∧
      (readLoop (fun _ => ReadRes.chunk [65]) (fun _ => 30000) 1 0).1.get?
          (2 - 2) = some (Event.readChunk bytes)) ∧
    readLoop (fun _ => ReadRes.readErr) (fun _ => 30000) 1 0 = ([], true) := by
  constructor
  · exact deadline_checked_only_after_read.1 (fun _ => ReadRes.chunk [65])
      (fun _ => 30000) 1 2 true (by decide)
  · exact deadline_checked_only_after_read.2 (fun _ => ReadRes.readErr)
      (fun _ => 30000) 1 rfl (by decide)

/-! ## Whole-run characterisations -/

lemma fetchPhase_ok (rd : Nat → ReadRes) (t : Nat → Nat) (fuel : Nat)
    (hr : (readLoop rd t fuel 0).2 = true) :
    fetchPhase true true true rd t fuel =
      ([Event.socketWork, Event.socketOpen 142 250 185 115 80,
        Event.socketWrite httpRequest, Event.socketFlush] ++
        (readLoop rd t fuel 0).1 ++ [Event.disconnect], some true) := by
  rcases hq : readLoop rd t fuel 0 with ⟨evs, r⟩
  rw [hq] at hr
  dsimp only at hr
  subst hr
  simp [fetchPhase, hq]

lemma fetchPhase_err (oOk wOk fOk : Bool) (rd : Nat → ReadRes)
    (t : Nat → Nat) (fuel : Nat)
    (h : oOk = false ∨ wOk = false ∨ fOk = false) :
    (fetchPhase oOk wOk fOk rd t fuel).2 = some false := by
  rcases h with h | h | h
  · subst h
    simp [fetchPhase]
  · subst h
    cases oOk <;> simp [fetchPhase]
  · subst h
    cases oOk <;> cases wOk <;> simp [fetchPhase]

lemma render_not_in_readLoop (rd : Nat → ReadRes) (t : Nat → Nat)
    (fuel k : Nat) : Event.render ∉ (readLoop rd t fuel k).1 := by
  intro h
  rcases readLoop_shape rd t fuel k Event.render h with
    ⟨b, hb⟩ | ⟨b, hb⟩ | ⟨b, hb⟩ | hb <;> simp at hb

lemma render_not_in_fetch (oOk wOk fOk : Bool) (rd : Nat → ReadRes)
    (t : Nat → Nat) (fuel : Nat) :
    Event.render ∉ (fetchPhase oOk wOk fOk rd t fuel).1 := by
  intro h
  rcases fetchPhase_shape oOk wOk fOk rd t fuel Event.render h with
    h1 | h1 | h1 | h1 | h1 | h1
  · simp at h1
  · simp at h1
  · simp at h1
  · simp at h1
  · simp at h1
  · exact render_not_in_readLoop rd t fuel 0 h1

lemma runTail_success (conn : Nat → WifiStatus) (u : Nat → Bool)
    (ip : Nat → Option (List Nat)) (rd : Nat → ReadRes) (t : Nat → Nat)
    (N M K fuel : Nat)
    (hN : ∀ j, j < N → conn j = WifiStatus.notConnected)
    (hNc : conn N = WifiStatus.connected)
    (hM : ∀ j, j < M → u j = false)
    (hMu : u M = true)
    (hK : ∀ k, K ≤ k → 20000 < t k)
    (h1 : N < fuel) (h2 : M < fuel) (h3 : K < fuel) :
    runTail conn u ip true true true rd t fuel =
      (List.replicate N (Event.statusCheck WifiStatus.notConnected) ++
        Event.statusCheck WifiStatus.connected ::
        Event.statusLog (conn (N + 1)) ::
        (List.replicate M Event.stackWork ++
          Event.stackWork :: Event.gotIp (ip M) ::
          (Event.socketWork :: Event.socketOpen 142 250 185 115 80 ::
            Event.socketWrite httpRequest :: Event.socketFlush ::
            ((readLoop rd t fuel 0).1 ++ Event.disconnect ::
              (renderEvents ++ List.replicate fuel Event.socketWork)))),
       RunEnd.idleForever) := by
  have hc := connectLoop_ok conn N fuel 0
    (fun j hj => by simpa using hN j hj) (by simpa using hNc) h1
  have hi := ipLoop_up u ip M fuel 0
    (fun j hj => by simpa using hM j hj) (by simpa using hMu) h2
  have hfp := fetchPhase_ok rd t fuel
    (readLoop_completes rd t K hK fuel 0 (by omega) (by omega))
  simp only [runTail, hc, hi, hfp]
  simp

lemma runTail_panic (conn : Nat → WifiStatus) (u : Nat → Bool)
    (ip : Nat → Option (List Nat)) (oOk wOk fOk : Bool)
    (rd : Nat → ReadRes) (t : Nat → Nat) (N M fuel : Nat)
    (hN : ∀ j, j < N → conn j = WifiStatus.notConnected)
    (hNc : conn N = WifiStatus.connected)
    (hM : ∀ j, j < M → u j = false)
    (hMu : u M = true)
    (herr : oOk = false ∨ wOk = false ∨ fOk = false)
    (h1 : N < fuel) (h2 : M < fuel) :
    (runTail conn u ip oOk wOk fOk rd t fuel).2 = RunEnd.paniced ∧
    Event.render ∉ (runTail conn u ip oOk wOk fOk rd t fuel).1 := by
  have hc := connectLoop_ok conn N fuel 0
    (fun j hj => by simpa using hN j hj) (by simpa using hNc) h1
  have hi := ipLoop_up u ip M fuel 0
    (fun j hj => by simpa using hM j hj) (by simpa using hMu) h2
  have hfp := fetchPhase_err oOk wOk fOk rd t fuel herr
  rcases hq : fetchPhase oOk wOk fOk rd t fuel with ⟨evs3, r3⟩
  rw [hq] at hfp
  dsimp only at hfp
  subst hfp
  constructor
  · simp [runTail, hc, hi, hq]
  · intro hmem
    simp only [runTail, hc, hi, hq] at hmem
    have hfetch : Event.render ∈ evs3 := by
      simpa [List.mem_replicate] using hmem
    exact render_not_in_fetch oOk wOk fOk rd t fuel (by rw [hq]; exact hfetch)

lemma runTail_halted (conn : Nat → WifiStatus) (u : Nat → Bool)
    (ip : Nat → Option (List Nat)) (oOk wOk fOk : Bool)
    (rd : Nat → ReadRes) (t : Nat → Nat) (N fuel : Nat)
    (hN : ∀ j, j < N → conn j = WifiStatus.notConnected)
    (hNe : conn N = WifiStatus.statusErr) (h1 : N < fuel) :
    runTail conn u ip oOk wOk fOk rd t fuel =
      (List.replicate N (Event.statusCheck WifiStatus.notConnected) ++
        [Event.statusCheck WifiStatus.statusErr, Event.halt],
       RunEnd.haltedForever) := by
  have hc := connectLoop_err conn N fuel 0
    (fun j hj => by simpa using hN j hj) (by simpa using hNe) h1
  simp [runTail, hc]

/-! ## Filter helpers -/

lemma filter_none_of_shape (p : Event → Bool) (l : List Event)
    (h : ∀ e ∈ l, p e = false) : l.filter p = [] := by
  induction l with
  | nil => rfl
  | cons a l ih =>
    have ha := h a (by simp)
    simp [List.filter, ha, ih (fun e he => h e (by simp [he]))]

lemma filter_replicate_none (p : Event → Bool) (n : Nat) (a : Event)
    (h : p a = false) : (List.replicate n a).filter p = [] :=
  filter_none_of_shape p _ (by
    intro e he
    rw [List.eq_of_mem_replicate he]
    exact h)

lemma filter_replicate_all (p : Event → Bool) (n : Nat) (a : Event)
    (h : p a = true) : (List.replicate n a).filter p = List.replicate n a := by
  induction n with
  | zero => rfl
  | succ m ih => simp [List.replicate_succ, List.filter, h, ih]

lemma readLoop_filter_eq_nil (p : Event → Bool) (rd : Nat → ReadRes)
    (t : Nat → Nat) (fuel k : Nat)
    (h1 : ∀ b, p (Event.readChunk b) = false)
    (h2 : ∀ b, p (Event.logUnchecked b) = false)
    (h3 : ∀ b, p (Event.deadlineCheck b) = false)
    (h4 : p Event.timeoutLog = false) :
    ((readLoop rd t fuel k).1).filter p = [] := by
  apply filter_none_of_shape
  intro e he
  rcases readLoop_shape rd t fuel k e he with
    ⟨b, hb⟩ | ⟨b, hb⟩ | ⟨b, hb⟩ | hb <;> subst hb
  · exact h1 b
  · exact h2 b
  · exact h3 b
  · exact h4

lemma fetchPhase_no_status_no_ip (oOk wOk fOk : Bool) (rd : Nat → ReadRes)
    (t : Nat → Nat) (fuel : Nat) :
    ∀ e ∈ (fetchPhase oOk wOk fOk rd t fuel).1,
      isStatusCheck e = false ∧ isGotIp e = false := by
  intro e he
  rcases fetchPhase_shape oOk wOk fOk rd t fuel e he with
    h | h | h | h | h | h
  · subst h; exact ⟨rfl, rfl⟩
  · subst h; exact ⟨rfl, rfl⟩
  · subst h; exact ⟨rfl, rfl⟩
  · subst h; exact ⟨rfl, rfl⟩
  · subst h; exact ⟨rfl, rfl⟩
  · rcases readLoop_shape rd t fuel 0 e h with
      ⟨b, hb⟩ | ⟨b, hb⟩ | ⟨b, hb⟩ | hb <;> subst hb <;> exact ⟨rfl, rfl⟩

lemma runTail_counts (conn : Nat → WifiStatus) (u : Nat → Bool)
    (ip : Nat → Option (List Nat)) (oOk wOk fOk : Bool)
    (rd : Nat → ReadRes) (t : Nat → Nat) (N M fuel : Nat)
    (hN : ∀ j, j < N → conn j = WifiStatus.notConnected)
    (hNc : conn N = WifiStatus.connected)
    (hM : ∀ j, j < M → u j = false)
    (hMu : u M = true)
    (h1 : N < fuel) (h2 : M < fuel) :
    (((runTail conn u ip oOk wOk fOk rd t fuel).1).filter
        isStatusCheck).length = N + 1 ∧
    ((runTail conn u ip oOk wOk fOk rd t fuel).1).filter isGotIp =
      [Event.gotIp (ip M)] := by
  have hc := connectLoop_ok conn N fuel 0
    (fun j hj => by simpa using hN j hj) (by simpa using hNc) h1
  have hi := ipLoop_up u ip M fuel 0
    (fun j hj => by simpa using hM j hj) (by simpa using hMu) h2
  have hsh := fetchPhase_no_status_no_ip oOk wOk fOk rd t fuel
  have hst : ((fetchPhase oOk wOk fOk rd t fuel).1).filter isStatusCheck = [] :=
    filter_none_of_shape _ _ (fun e he => (hsh e he).1)
  have hgi : ((fetchPhase oOk wOk fOk rd t fuel).1).filter isGotIp = [] :=
    filter_none_of_shape _ _ (fun e he => (hsh e he).2)
  have fa := filter_replicate_all isStatusCheck N
    (Event.statusCheck WifiStatus.notConnected) rfl
  have f1 := filter_replicate_none isStatusCheck M Event.stackWork rfl
  have f2 := filter_replicate_none isStatusCheck fuel Event.socketWork rfl
  have g1 := filter_replicate_none isGotIp N
    (Event.statusCheck WifiStatus.notConnected) rfl
  have g2 := filter_replicate_none isGotIp M Event.stackWork rfl
  have g3 := filter_replicate_none isGotIp fuel Event.socketWork rfl
  rcases hq : fetchPhase oOk wOk fOk rd t fuel with ⟨evs3, r3⟩
  rw [hq] at hst hgi
  dsimp only at hst hgi
  rcases r3 with _ | b
  · simp only [runTail, hc, hi, hq]
    constructor
    · simp [List.filter_append, hst, fa, f1, f2, List.filter_cons,
        isStatusCheck]
    · simp [List.filter_append, hgi, g1, g2, g3, List.filter_cons, isGotIp]
  · rcases b with _ | _
    · simp only [runTail, hc, hi, hq]
      constructor
      · simp [List.filter_append, hst, fa, f1, f2, List.filter_cons,
          isStatusCheck]
      · simp [List.filter_append, hgi, g1, g2, g3, List.filter_cons, isGotIp]
    · simp only [runTail, hc, hi, hq]
      constructor
      · simp [List.filter_append, hst, fa, f1, f2, List.filter_cons,
          isStatusCheck, renderEvents]
      · simp [List.filter_append, hgi, g1, g2, g3, List.filter_cons, isGotIp,
          renderEvents]

/-! ## C3: a status error during bring-up halts the program forever -/

/-- C3: the bring-up loop polls `is_connected` back-to-back (its trace
segment is exactly the status checks, with no other event between them);
on a status error the program enters the unrecoverable `loop {}`: the run
halts forever and no later phase — address acquisition (`gotIp`), the fetch
(`socketOpen`), or the render — is ever reached. -/
theorem bringup_error_halts (env : Env) (N fuel : Nat)
    (hN : ∀ j, j < N → env.isConnected j = WifiStatus.notConnected)
    (hNe : env.isConnected N = WifiStatus.statusErr)
    (h1 : N < fuel) :
    (runMain env fuel).trace =
      Event.scan (env.scanResult.take 10) :: Event.connectCmd ::
        (List.replicate N (Event.statusCheck WifiStatus.notConnected) ++
          [Event.statusCheck WifiStatus.statusErr, Event.halt]) ∧
    (runMain env fuel).ending = RunEnd.haltedForever ∧
    Event.render ∉ (runMain env fuel).trace ∧
    (∀ a, Event.gotIp a ∉ (runMain env fuel).trace) ∧
    (∀ a b c d p, Event.socketOpen a b c d p ∉ (runMain env fuel).trace) := by
  have ht := runTail_halted env.isConnected env.ifaceUp env.ipInfo env.openOk
    env.writeOk env.flushOk env.readResults env.timeAfterRead N fuel hN hNe h1
  refine ⟨?_, ?_, ?_, ?_, ?_⟩
  · simp [runMain, ht]
  · simp [runMain, ht]
  · simp [runMain, ht, List.mem_replicate]
  · intro a
    simp [runMain, ht, List.mem_replicate]
  · intro a b c d p
    simp [runMain, ht, List.mem_replicate]

/-- Concrete radio for the C3 witness: two not-connected answers, then a
status error. -/
def envC3 : Env where
  scanResult := []
  isConnected := fun k =>
    if k < 2 then WifiStatus.notConnected else WifiStatus.statusErr
  ifaceUp := fun _ => true
  ipInfo := fun _ => some [10, 0, 0, 1]
  openOk := true
  writeOk := true
  flushOk := true
  readResults := fun _ => ReadRes.readErr
  timeAfterRead := fun _ => 0

/-- C3 witness: the halt at the concrete environment `envC3`. -/
theorem bringup_error_halts_witness :
    envC3.isConnected 2 = WifiStatus.statusErr ∧
    (runMain envC3 4).ending = RunEnd.haltedForever ∧
    Event.render ∉ (runMain envC3 4).trace := by
  have h := bringup_error_halts envC3 2 4 (by decide) (by decide) (by decide)
  exact ⟨by decide, h.2.1, h.2.2.1⟩

/-! ## C1: socket-layer errors are NOT all absorbed (corrected) -/

/-- Environment in which the socket `open` fails; everything before the
fetch succeeds immediately. -/
def envC1 : Env where
  scanResult := []
  isConnected := fun _ => WifiStatus.connected
  ifaceUp := fun _ => true
  ipInfo := fun _ => some [10, 0, 0, 1]
  openOk := false
  writeOk := true
  flushOk := true
  readResults := fun _ => ReadRes.readErr
  timeAfterRead := fun _ => 0

/-- Like `envC1` but with every socket operation succeeding and the clock
already past the deadline at the first read check. -/
def envC1good : Env where
  scanResult := []
  isConnected := fun _ => WifiStatus.connected
  ifaceUp := fun _ => true
  ipInfo := fun _ => some [10, 0, 0, 1]
  openOk := true
  writeOk := true
  flushOk := true
  readResults := fun _ => ReadRes.readErr
  timeAfterRead := fun _ => 30000

/-- C1 counterexample: a run that reaches the fetch phase (the `open`
attempt is in its trace) in which `open` fails: the `unwrap` panics and the
display-render phase never executes — refuting the claim that no
socket-layer error prevents the render step from running. -/
theorem socket_error_absorbed_cex :
    (runMain envC1 3).ending = RunEnd.paniced ∧
    Event.render ∉ (runMain envC1 3).trace ∧
    Event.socketOpen 142 250 185 115 80 ∈ (runMain envC1 3).trace := by
  decide

/-- C1 (amended): only a failure of the socket `read` is absorbed locally —
the read loop exits and the run still renders and reaches the terminal idle
loop, whatever the read oracle does; but a failure of `open`, `write` or
`flush` hits an `unwrap`, panics, and the render phase never executes. -/
theorem socket_error_handling_amended :
    (∀ (env : Env) (N M K fuel : Nat),
      (∀ j, j < N → env.isConnected j = WifiStatus.notConnected) →
      env.isConnected N = WifiStatus.connected →
      (∀ j, j < M → env.ifaceUp j = false) →
      env.ifaceUp M = true →
      env.openOk = true → env.writeOk = true → env.flushOk = true →
      (∀ k, K ≤ k → 20000 < env.timeAfterRead k) →
      N < fuel → M < fuel → K < fuel →
      Event.render ∈ (runMain env fuel).trace ∧
      (runMain env fuel).ending = RunEnd.idleForever) ∧
    (∀ (env : Env) (N M fuel : Nat),
      (∀ j, j < N → env.isConnected j = WifiStatus.notConnected) →
      env.isConnected N = WifiStatus.connected →
      (∀ j, j < M → env.ifaceUp j = false) →
      env.ifaceUp M = true →
      (env.openOk = false ∨ env.writeOk = false ∨ env.flushOk = false) →
      N < fuel → M < fuel →
      (runMain env fuel).ending = RunEnd.paniced ∧
      Event.render ∉ (runMain env fuel).trace) := by
  constructor
  · intro env N M K fuel hN hNc hM hMu ho hw hf hK h1 h2 h3
    have hs := runTail_success env.isConnected env.ifaceUp env.ipInfo
      env.readResults env.timeAfterRead N M K fuel hN hNc hM hMu hK h1 h2 h3
    constructor
    · simp only [runMain, ho, hw, hf, hs]
      simp [renderEvents]
    · simp only [runMain, ho, hw, hf, hs]
  · intro env N M fuel hN hNc hM hMu herr h1 h2
    have hp := runTail_panic env.isConnected env.ifaceUp env.ipInfo env.openOk
      env.writeOk env.flushOk env.readResults env.timeAfterRead N M fuel
      hN hNc hM hMu herr h1 h2
    constructor
    · simpa [runMain] using hp.1
    · intro hmem
      apply hp.2
      simpa [runMain] using hmem

/-- C1 amended-claim witness: with all socket operations succeeding the run
renders and idles; with a failing `open` it panics without rendering. -/
theorem socket_error_handling_amended_witness :
    (Event.render ∈ (runMain envC1good 3).trace ∧
      (runMain envC1good 3).ending = RunEnd.idleForever) ∧
    ((runMain envC1 3).ending = RunEnd.paniced ∧
      Event.render ∉ (runMain envC1 3).trace) := by
  constructor
  · exact socket_error_handling_amended.1 envC1good 0 0 0 3 (by decide)
      (by decide) (by decide) (by decide) (by decide) (by decide) (by decide)
      (fun k _ => by show (20000 : Nat) < 30000; norm_num)
      (by decide) (by decide) (by decide)
  · exact socket_error_handling_amended.2 envC1 0 0 3 (by decide) (by decide)
      (by decide) (by decide) (Or.inl (by decide)) (by decide) (by decide)

/-! ## C4: exact status-check count and address at first interface-up -/

/-- C4: if the radio answers not-connected for the first N status checks
and connected thereafter, the bring-up loop performs exactly N+1 status
checks (the trace holds exactly N+1 `statusCheck` events); and the single
address report happens exactly at the first work tick on which the
interface reports up, with a present (non-empty) address — the latter under
the spec-modelled invariant that `get_ip_info` is populated whenever the
interface is up. -/
theorem bringup_poll_counts (env : Env) (N M fuel : Nat)
    (hN : ∀ j, j < N → env.isConnected j = WifiStatus.notConnected)
    (hNall : ∀ j, N ≤ j → env.isConnected j = WifiStatus.connected)
    (hM : ∀ j, j < M → env.ifaceUp j = false)
    (hMu : env.ifaceUp M = true)
    (hip : ∀ k, env.ifaceUp k = true → (env.ipInfo k).isSome = true)
    (h1 : N < fuel) (h2 : M < fuel) :
    (((runMain env fuel).trace.filter isStatusCheck)).length = N + 1 ∧
    (runMain env fuel).trace.filter isGotIp = [Event.gotIp (env.ipInfo M)] ∧
    (env.ipInfo M).isSome = true := by
  have hco := runTail_counts env.isConnected env.ifaceUp env.ipInfo env.openOk
    env.writeOk env.flushOk env.readResults env.timeAfterRead N M fuel
    hN (hNall N (le_refl N)) hM hMu h1 h2
  refine ⟨?_, ?_, hip M hMu⟩
  · simp only [runMain]
    rw [List.filter_cons_of_neg, List.filter_cons_of_neg]
    · exact hco.1
    · simp [isStatusCheck]
    · simp [isStatusCheck]
  · simp only [runMain]
    rw [List.filter_cons_of_neg, List.filter_cons_of_neg]
    · exact hco.2
    · simp [isGotIp]
    · simp [isGotIp]

/-- Concrete collaborators for the C4 witness: connected after 2 polls, the
interface up after 1 tick, the address present from the start. -/
def envC4 : Env where
  scanResult := [3, 5]
  isConnected := fun k =>
    if k < 2 then WifiStatus.notConnected else WifiStatus.connected
  ifaceUp := fun k => decide (1 ≤ k)
  ipInfo := fun _ => some [192, 168, 1, 2]
  openOk := true
  writeOk := true
  flushOk := true
  readResults := fun _ => ReadRes.readErr
  timeAfterRead := fun _ => 0

/-- C4 witness: N = 2, M = 1 at the concrete environment `envC4`. -/
theorem bringup_poll_counts_witness :
    ((runMain envC4 4).trace.filter isStatusCheck).length = 2 + 1 ∧
    (runMain envC4 4).trace.filter isGotIp =
      [Event.gotIp (envC4.ipInfo 1)] ∧
    (envC4.ipInfo 1).isSome = true := by
  have h := bringup_poll_counts envC4 2 1 4 (by decide)
    (fun j hj => by
      have : ¬j < 2 := by omega
      simp [envC4, this])
    (by decide) (by decide) (fun k _ => by show (some [192, 168, 1, 2]).isSome = true; rfl)
    (by decide) (by decide)
  exact h

/-! ## C5: the diagnostic scan gates nothing -/

/-- C5: the access-point scan is purely diagnostic.  The scan event records
at most 10 access points; for any two scan outcomes (with every other
collaborator behaving identically) the run's ending and its entire trace
after the scan event — connect attempt included — are identical, and the
connect request is issued whatever the scan returned. -/
theorem scan_diagnostic_only (env : Env) (aps1 aps2 : List Nat) (fuel : Nat) :
    (runMain { env with scanResult := aps1 } fuel).ending =
      (runMain { env with scanResult := aps2 } fuel).ending ∧
    (runMain { env with scanResult := aps1 } fuel).trace.tail =
      (runMain { env with scanResult := aps2 } fuel).trace.tail ∧
    (∀ aps : List Nat,
      (runMain { env with scanResult := aps } fuel).trace.head? =
        some (Event.scan (aps.take 10)) ∧
      (aps.take 10).length ≤ 10 ∧
      Event.connectCmd ∈ (runMain { env with scanResult := aps } fuel).trace) := by
  refine ⟨rfl, rfl, fun aps => ⟨rfl, ?_, ?_⟩⟩
  · simp
  · simp [runMain]

/-! ## C6: the post-render state is terminally idle -/

/-- C6: once the panel refresh has completed, the program is terminal: its
trace is a prefix ending in the `render` event followed by nothing but
socket work-advancing ticks, and the run idles forever (never returns from
`main`, never draws again, never fetches again). -/
theorem terminal_idle (env : Env) (N M K fuel : Nat)
    (hN : ∀ j, j < N → env.isConnected j = WifiStatus.notConnected)
    (hNc : env.isConnected N = WifiStatus.connected)
    (hM : ∀ j, j < M → env.ifaceUp j = false)
    (hMu : env.ifaceUp M = true)
    (ho : env.openOk = true) (hw : env.writeOk = true)
    (hf : env.flushOk = true)
    (hK : ∀ k, K ≤ k → 20000 < env.timeAfterRead k)
    (h1 : N < fuel) (h2 : M < fuel) (h3 : K < fuel) :
    (∃ p, (runMain env fuel).trace =
      p ++ Event.render :: List.replicate fuel Event.socketWork) ∧
    (runMain env fuel).ending = RunEnd.idleForever := by
  have hs := runTail_success env.isConnected env.ifaceUp env.ipInfo
    env.readResults env.timeAfterRead N M K fuel hN hNc hM hMu hK h1 h2 h3
  constructor
  · refine ⟨Event.scan (env.scanResult.take 10) :: Event.connectCmd ::
      (List.replicate N (Event.statusCheck WifiStatus.notConnected) ++
        Event.statusCheck WifiStatus.connected ::
        Event.statusLog (env.isConnected (N + 1)) ::
        (List.replicate M Event.stackWork ++
          Event.stackWork :: Event.gotIp (env.ipInfo M) ::
          (Event.socketWork :: Event.socketOpen 142 250 185 115 80 ::
            Event.socketWrite httpRequest :: Event.socketFlush ::
            ((readLoop env.readResults env.timeAfterRead fuel 0).1 ++
              [Event.disconnect, Event.panelInit, Event.drawText,
               Event.drawRect, Event.drawBitmap, Event.drawLine])))), ?_⟩
    simp only [runMain, ho, hw, hf, hs]
    simp [renderEvents]
  · simp [runMain, ho, hw, hf, hs]

/-- Concrete environment for the C6 witness: everything succeeds at once,
the clock is already past the deadline. -/
def envC6 : Env where
  scanResult := [9]
  isConnected := fun _ => WifiStatus.connected
  ifaceUp := fun _ => true
  ipInfo := fun _ => some [172, 16, 0, 4]
  openOk := true
  writeOk := true
  flushOk := true
  readResults := fun _ => ReadRes.chunk [72, 84, 84, 80]
  timeAfterRead := fun _ => 25000

/-- C6 witness: the terminal idle shape at the concrete environment
`envC6`. -/
theorem terminal_idle_witness :
    (∃ p, (runMain envC6 3).trace =
      p ++ Event.render :: List.replicate 3 Event.socketWork) ∧
    (runMain envC6 3).ending = RunEnd.idleForever := by
  exact terminal_idle envC6 0 0 0 3 (by decide) (by decide) (by decide)
    (by decide) (by decide) (by decide) (by decide)
    (fun k _ => by show (20000 : Nat) < 25000; norm_num)
    (by decide) (by decide) (by decide)

/-! ## C10: one fixed connection, one literal request, write before flush -/

/-- C10: every run that completes its fetch opens exactly one TCP
connection, always to 142.250.185.115 port 80, writes exactly the literal
request bytes, and flushes exactly once, with open, write and flush adjacent
in that order; the destination address and the request (hence the Host
header) are the same compile-time constants for every environment, and the
request is literally
`"GET / HTTP/1.0\r\nHost: www.mobile-j.de\r\n\r\n"`. -/
theorem fetch_request_constant (env : Env) (N M K fuel : Nat)
    (hN : ∀ j, j < N → env.isConnected j = WifiStatus.notConnected)
    (hNc : env.isConnected N = WifiStatus.connected)
    (hM : ∀ j, j < M → env.ifaceUp j = false)
    (hMu : env.ifaceUp M = true)
    (ho : env.openOk = true) (hw : env.writeOk = true)
    (hf : env.flushOk = true)
    (hK : ∀ k, K ≤ k → 20000 < env.timeAfterRead k)
    (h1 : N < fuel) (h2 : M < fuel) (h3 : K < fuel) :
    (runMain env fuel).trace.filter isOpenEvt =
      [Event.socketOpen 142 250 185 115 80] ∧
    (runMain env fuel).trace.filter isWriteEvt =
      [Event.socketWrite httpRequest] ∧
    (runMain env fuel).trace.filter isFlushEvt = [Event.socketFlush] ∧
    (∃ p s, (runMain env fuel).trace =
      p ++ Event.socketOpen 142 250 185 115 80 ::
        Event.socketWrite httpRequest :: Event.socketFlush :: s) ∧
    httpRequest =
      "GET / HTTP/1.0\r\nHost: www.mobile-j.de\r\n\r\n".data.map Char.toNat := by
  have hs := runTail_success env.isConnected env.ifaceUp env.ipInfo
    env.readResults env.timeAfterRead N M K fuel hN hNc hM hMu hK h1 h2 h3
  have o1 := filter_replicate_none isOpenEvt N
    (Event.statusCheck WifiStatus.notConnected) rfl
  have o2 := filter_replicate_none isOpenEvt M Event.stackWork rfl
  have o3 := filter_replicate_none isOpenEvt fuel Event.socketWork rfl
  have o4 := readLoop_filter_eq_nil isOpenEvt env.readResults
    env.timeAfterRead fuel 0 (fun _ => rfl) (fun _ => rfl) (fun _ => rfl) rfl
  have w1 := filter_replicate_none isWriteEvt N
    (Event.statusCheck WifiStatus.notConnected) rfl
  have w2 := filter_replicate_none isWriteEvt M Event.stackWork rfl
  have w3 := filter_replicate_none isWriteEvt fuel Event.socketWork rfl
  have w4 := readLoop_filter_eq_nil isWriteEvt env.readResults
    env.timeAfterRead fuel 0 (fun _ => rfl) (fun _ => rfl) (fun _ => rfl) rfl
  have fl1 := filter_replicate_none isFlushEvt N
    (Event.statusCheck WifiStatus.notConnected) rfl
  have fl2 := filter_replicate_none isFlushEvt M Event.stackWork rfl
  have fl3 := filter_replicate_none isFlushEvt fuel Event.socketWork rfl
  have fl4 := readLoop_filter_eq_nil isFlushEvt env.readResults
    env.timeAfterRead fuel 0 (fun _ => rfl) (fun _ => rfl) (fun _ => rfl) rfl
  refine ⟨?_, ?_, ?_, ?_, rfl⟩
  · simp only [runMain, ho, hw, hf, hs]
    simp [List.filter_append, List.filter_cons, isOpenEvt, renderEvents,
      o1, o2, o3, o4]
  · simp only [runMain, ho, hw, hf, hs]
    simp [List.filter_append, List.filter_cons, isWriteEvt, renderEvents,
      w1, w2, w3, w4]
  · simp only [runMain, ho, hw, hf, hs]
    simp [List.filter_append, List.filter_cons, isFlushEvt, renderEvents,
      fl1, fl2, fl3, fl4]
  · refine ⟨Event.scan (env.scanResult.take 10) :: Event.connectCmd ::
      (List.replicate N (Event.statusCheck WifiStatus.notConnected) ++
        Event.statusCheck WifiStatus.connected ::
        Event.statusLog (env.isConnected (N + 1)) ::
        (List.replicate M Event.stackWork ++
          [Event.stackWork, Event.gotIp (env.ipInfo M), Event.socketWork])),
      (readLoop env.readResults env.timeAfterRead fuel 0).1 ++
        Event.disconnect ::
        (renderEvents ++ List.replicate fuel Event.socketWork), ?_⟩
    simp only [runMain, ho, hw, hf, hs]
    simp

/-- Concrete environment for the C10 witness. -/
def envC10 : Env where
  scanResult := []
  isConnected := fun _ => WifiStatus.connected
  ifaceUp := fun _ => true
  ipInfo := fun _ => some [10, 1, 1, 7]
  openOk := true
  writeOk := true
  flushOk := true
  readResults := fun _ => ReadRes.readErr
  timeAfterRead := fun _ => 30000

/-- C10 witness: the fixed address, literal request and ordering at the
concrete environment `envC10`. -/
theorem fetch_request_constant_witness :
    (runMain envC10 2).trace.filter isOpenEvt =
      [Event.socketOpen 142 250 185 115 80] ∧
    (runMain envC10 2).trace.filter isWriteEvt =
      [Event.socketWrite httpRequest] ∧
    (runMain envC10 2).trace.filter isFlushEvt = [Event.socketFlush] ∧
    (∃ p s, (runMain envC10 2).trace =
      p ++ Event.socketOpen 142 250 185 115 80 ::
        Event.socketWrite httpRequest :: Event.socketFlush :: s) ∧
    httpRequest =
      "GET / HTTP/1.0\r\nHost: www.mobile-j.de\r\n\r\n".data.map Char.toNat := by
  exact fetch_request_constant envC10 0 0 0 2 (by decide) (by decide)
    (by decide) (by decide) (by decide) (by decide) (by decide)
    (fun k _ => by show (20000 : Nat) < 30000; norm_num)
    (by decide) (by decide) (by decide)
